import Mathlib

/-!
# VellumEngine — shallow embedding and verification

A shallow embedding of the core of the VellumEngine repository
(`src/scene.rs`, `src/game_loop.rs`, `src/renderer.rs`, `src/app.rs`)
and proofs about it.

Modelling conventions:
* `std::time::Duration` is an exact count of nanoseconds; we model durations
  as `ℕ` (nanoseconds) and `Instant` timestamps as `ℕ` (nanoseconds since an
  arbitrary epoch).  `Instant::duration_since` saturates at zero, which is
  exactly `Nat` subtraction.
* `f32`/`f64` scene coordinates are modelled as `ℚ`.  Every concrete value the
  program puts in them (`0.0`, `±0.5`, and the sums and halvings thereof that
  the theorems below evaluate) is a small dyadic rational on which IEEE
  binary32/binary64 addition and multiplication are exact, so the rational
  model agrees bit-for-bit with the floating-point program on those inputs.
* GPU objects (`Device`, `Queue`, `Surface`, `RenderPipeline`, `TextureFormat`,
  alpha modes) are opaque handles, modelled as `ℕ` tokens.  A `wgpu::Buffer`
  created by `create_buffer_init` is modelled by its contents, a `List Vertex`.
* The fallible / environment-dependent GPU calls of `Renderer::initialize` and
  `Renderer::render` (surface creation, adapter and device requests, surface
  capabilities, texture acquisition, window size) are inputs supplied in an
  environment record; the GPU side effects a call performs are recorded in an
  output trace of `GpuCall`s.
-/

namespace Vellum

/-! ## Scene (`src/scene.rs`) -/

/-- `struct Vertex { position: [f32; 2] }` — a 2-D position, modelled over `ℚ`. -/
structure Vertex where
  position : ℚ × ℚ
deriving DecidableEq, Repr

/-- `struct Entity { vertices: Vec<Vertex>, position: [f32; 2] }`. -/
structure Entity where
  vertices : List Vertex
  position : ℚ × ℚ
deriving DecidableEq, Repr

/-- `struct Scene { entities: Vec<Entity>, vertex_buffer: Option<wgpu::Buffer> }`.
The GPU vertex buffer is modelled by its contents. -/
structure Scene where
  entities : List Entity
  vertex_buffer : Option (List Vertex)
deriving DecidableEq, Repr

/-- `Scene::new()` — one triangle entity at offset `[0,0]`, no buffer yet. -/
def Scene.new : Scene :=
  { entities := [
      { vertices := [
          { position := (0, 1/2) },
          { position := (-(1/2), -(1/2)) },
          { position := (1/2, -(1/2)) }],
        position := (0, 0) }],
    vertex_buffer := none }

/-- `Scene::initialize_buffer(&mut self, device)` — flattens every entity's
local vertices translated by the entity's world offset into one packed list and
stores it as the (re)created vertex buffer.  The `device` handle is only used
by the GPU allocation, which we abstract to the buffer contents. -/
def Scene.initialize_buffer (s : Scene) (_device : ℕ) : Scene :=
  { s with vertex_buffer := some (s.entities.flatMap (fun entity =>
      entity.vertices.map (fun v =>
        { position := (v.position.1 + entity.position.1,
                       v.position.2 + entity.position.2) }))) }

/-- `Scene::vertex_count(&self) -> u32` — sum of the entities' vertex-list
lengths (the `as u32` casts cannot overflow for the scenes at hand). -/
def Scene.vertex_count (s : Scene) : ℕ :=
  (s.entities.map (fun e => e.vertices.length)).sum

/-- `Scene::update(&mut self, delta_time: f64)` — if the scene is non-empty,
move the first entity's x offset by `(delta_time * 0.5) as f32`. -/
def Scene.update (s : Scene) (delta_time : ℚ) : Scene :=
  match s.entities with
  | [] => s
  | e :: rest =>
    { s with entities :=
        { e with position := (e.position.1 + delta_time * (1/2), e.position.2) } :: rest }

/-! ## GameLoop (`src/game_loop.rs`) -/

/-- `struct GameLoop { last_update: Instant, accumulated_time: Duration,
update_rate: Duration }` — all times in whole nanoseconds. -/
structure GameLoop where
  last_update : ℕ
  accumulated_time : ℕ
  update_rate : ℕ
deriving DecidableEq, Repr

/-- `Duration::from_secs_f64(q)` for a non-negative finite double `q`
(given as the exact rational value of that double): the duration is rounded to
the nearest representable nanosecond.  (Rust breaks ties to even; `round`
breaks ties upward; no value this development applies it to is a tie.) -/
def durationFromSecsF64 (q : ℚ) : ℕ :=
  (round (q * 1000000000) : ℤ).toNat

/-- The exact rational value of the IEEE-754 binary64 number `1.0 / 60.0`
(`0x1.1111111111111p-6`): the 52-bit mantissa of `16/15` rounds down, giving
`4803839602528529 * 2^-58 < 1/60`. -/
def f64_one_div_sixty : ℚ := 4803839602528529 / 2 ^ 58

/-- `GameLoop::new(updates_per_second)` — `inv_rate` is the exact value of the
double `1.0 / updates_per_second` (the app only ever calls `new(60.0)`, for
which that quotient is `f64_one_div_sixty`); `now` is the construction-time
`Instant::now()`. -/
def GameLoop.new (inv_rate : ℚ) (now : ℕ) : GameLoop :=
  { last_update := now,
    accumulated_time := 0,
    update_rate := durationFromSecsF64 inv_rate }

/-- The `while self.accumulated_time >= self.update_rate` loop of
`GameLoop::tick`: repeatedly subtract `rate` from `acc`, counting iterations.
(The source loop diverges when `rate = 0`; `GameLoop::new` always produces a
positive rate, and the `0 < rate` guard makes the model total.) -/
def drain (rate : ℕ) (acc : ℕ) : ℕ × ℕ :=
  if h : 0 < rate ∧ rate ≤ acc then
    let p := drain rate (acc - rate)
    (p.1, p.2 + 1)
  else
    (acc, 0)
termination_by acc
decreasing_by omega

/-- `GameLoop::tick(&mut self) -> (f64, u32)` — `now` is the value read from
`Instant::now()`.  Returns the updated state together with the elapsed
nanoseconds (the source converts them to `f64` seconds) and the update count. -/
def GameLoop.tick (g : GameLoop) (now : ℕ) : GameLoop × ℕ × ℕ :=
  let delta_time := now - g.last_update
  let acc := g.accumulated_time + delta_time
  let p := drain g.update_rate acc
  ({ g with last_update := now, accumulated_time := p.1 }, delta_time, p.2)

/-- Run `tick` once per entry of a list of successive `Instant::now()`
readings, collecting the returned `(elapsed, update_count)` pairs. -/
def GameLoop.runTicks (g : GameLoop) : List ℕ → GameLoop × List (ℕ × ℕ)
  | [] => (g, [])
  | now :: rest =>
    let t := g.tick now
    let r := t.1.runTicks rest
    (r.1, t.2 :: r.2)

/-! ## Renderer (`src/renderer.rs`) -/

/-- Token for `wgpu::TextureUsages::RENDER_ATTACHMENT`. -/
def renderAttachmentUsage : ℕ := 0

/-- Token for `wgpu::PresentMode::Fifo` (vertical sync). -/
def fifoPresentMode : ℕ := 0

/-- `wgpu::SurfaceConfiguration` as built in `Renderer::initialize` /
mutated in `Renderer::resize`. -/
structure SurfaceConfiguration where
  usage : ℕ
  format : ℕ
  width : ℕ
  height : ℕ
  present_mode : ℕ
  alpha_mode : ℕ
  view_formats : List ℕ
  desired_maximum_frame_latency : ℕ
deriving DecidableEq, Repr

/-- `struct Renderer` — the five GPU resource fields, each `Option` until
`initialize` succeeds, plus the owned `Scene`. -/
structure Renderer where
  device : Option ℕ
  queue : Option ℕ
  surface : Option ℕ
  config : Option SurfaceConfiguration
  render_pipeline : Option ℕ
  scene : Scene
deriving DecidableEq, Repr

/-- `Renderer::new()` — every GPU field `None`, fresh scene. -/
def Renderer.new : Renderer :=
  { device := none, queue := none, surface := none, config := none,
    render_pipeline := none, scene := Scene.new }

/-- The environment-dependent results consumed by `Renderer::initialize`:
outcomes of the fallible GPU calls, the surface capabilities, and the window's
current pixel size (`window.inner_size()`). -/
structure InitEnv where
  create_surface : Except String ℕ
  request_adapter_compatible : Except Unit ℕ
  request_adapter_fallback : Except Unit ℕ
  request_device : Except String (ℕ × ℕ)
  formats : List ℕ
  alpha_modes : List ℕ
  window_width : ℕ
  window_height : ℕ
  render_pipeline : ℕ
deriving Repr

/-- `Renderer::initialize(&mut self, window) -> Result<(), String>`.
Each `?` early-return propagates a typed error before any field of `self` is
assigned; on the success path the surface is configured, the pipeline built,
the scene's vertex buffer initialised, and only then are all five resource
fields stored.  (`surface_caps.formats[0]` / `alpha_modes[0]` index the
capability lists, which wgpu reports non-empty for a supported surface.) -/
def Renderer.init (env : InitEnv) (r : Renderer) :
    Renderer × Except String Unit :=
  match env.create_surface with
  | .error e => (r, .error ("Failed to create surface: " ++ e))
  | .ok surface =>
    match (match env.request_adapter_compatible with
           | .ok a => Except.ok a
           | .error _ =>
             match env.request_adapter_fallback with
             | .ok a => Except.ok a
             | .error _ =>
               Except.error "Failed to find any suitable GPU adapter.") with
    | .error e => (r, .error e)
    | .ok _adapter =>
      match env.request_device with
      | .error e => (r, .error ("Failed to request device: " ++ e))
      | .ok (device, queue) =>
        let surface_format := env.formats.getD 0 0
        let config : SurfaceConfiguration :=
          { usage := renderAttachmentUsage,
            format := surface_format,
            width := env.window_width,
            height := env.window_height,
            present_mode := fifoPresentMode,
            alpha_mode := env.alpha_modes.getD 0 0,
            view_formats := [],
            desired_maximum_frame_latency := 2 }
        -- `surface.configure(&device, &config)`; shader + pipeline creation.
        let scene := r.scene.initialize_buffer device
        ({ device := some device,
           queue := some queue,
           surface := some surface,
           config := some config,
           render_pipeline := some env.render_pipeline,
           scene := scene },
         .ok ())

/-- A GPU side effect performed by `render` / `resize`, recorded in an output
trace. -/
inductive GpuCall where
  | configure (device : ℕ) (config : SurfaceConfiguration)
  | beginRenderPass
  | draw (vertices : ℕ) (instances : ℕ)
  | submit
  | present
  | logError (msg : String)
deriving DecidableEq, Repr

/-- Outcome of `surface.get_current_texture()`. -/
inductive AcquireResult where
  | ok (texture : ℕ)
  | lost
  | error (msg : String)
deriving DecidableEq, Repr

/-- The environment-dependent result consumed by `Renderer::render`. -/
structure RenderEnv where
  get_current_texture : AcquireResult
deriving Repr

/-- `Renderer::render(&mut self)` — the six `let Some(..) else return` guards
(surface, device, queue, config, pipeline, scene vertex buffer) collapse into
one match; then the acquired-texture branches: `Lost` reconfigures and
returns, any other error logs and returns, success records one render pass
drawing `vertex_count()` vertices, one instance, then submits and presents.
Returns the (unchanged) state and the trace of GPU calls performed. -/
def Renderer.render (env : RenderEnv) (r : Renderer) :
    Renderer × List GpuCall :=
  match r.surface, r.device, r.queue, r.config, r.render_pipeline,
        r.scene.vertex_buffer with
  | some _surface, some device, some _queue, some config, some _pipeline,
    some _vb =>
    match env.get_current_texture with
    | .lost => (r, [.configure device config])
    | .error e => (r, [.logError ("Surface error: " ++ e)])
    | .ok _output =>
      (r, [.beginRenderPass, .draw r.scene.vertex_count 1, .submit, .present])
  | _, _, _, _, _, _ => (r, [])

/-- `Renderer::resize(&mut self, width, height)` — only when surface, device
and config are all present: clamp each dimension to ≥ 1, store the updated
configuration, reapply it to the surface. -/
def Renderer.resize (width height : ℕ) (r : Renderer) :
    Renderer × List GpuCall :=
  match r.surface, r.device, r.config with
  | some _surface, some device, some config =>
    let config' := { config with width := max width 1, height := max height 1 }
    ({ r with config := some config' }, [.configure device config'])
  | _, _, _ => (r, [])

/-! ## Frame driver (`src/app.rs`) -/

/-- `Duration::as_secs_f64` — nanoseconds to seconds; the conversion to `f64`
is exact for every duration this development evaluates it at. -/
def asSecsF64 (ns : ℕ) : ℚ := (ns : ℚ) / 1000000000

/-- `struct VellumApp`, restricted to the components in scope (window manager
and input manager are excluded external collaborators). -/
structure VellumApp where
  renderer : Renderer
  game_loop : GameLoop
deriving DecidableEq, Repr

/-- One iteration of the `for _ in 0..update_count` body of
`VellumApp::about_to_wait`: `scene.update(delta_time)`, then, if a device is
present, `scene.initialize_buffer(device)`. -/
def stepScene (delta_time : ℚ) (r : Renderer) : Renderer :=
  let r := { r with scene := r.scene.update delta_time }
  match r.device with
  | some device => { r with scene := r.scene.initialize_buffer device }
  | none => r

/-- `VellumApp::about_to_wait` — `game_loop.tick()`, then `update_count`
scene steps each fed the frame's `delta_time` (in seconds), then one
`renderer.render()`.  (`request_redraw` goes to the excluded window
manager.) -/
def VellumApp.about_to_wait (env : RenderEnv) (app : VellumApp) (now : ℕ) :
    VellumApp × List GpuCall :=
  let t := app.game_loop.tick now
  let delta_time := asSecsF64 t.2.1
  let update_count := t.2.2
  let r := (stepScene delta_time)^[update_count] app.renderer
  let rr := Renderer.render env r
  ({ renderer := rr.1, game_loop := t.1 }, rr.2)

/-! ## Derived predicates and concrete fixtures -/

/-- The `Uninitialized` state of the graphics context: none of the five GPU
resource fields has been set. -/
def Renderer.Uninitialized (r : Renderer) : Prop :=
  r.device = none ∧ r.queue = none ∧ r.surface = none ∧
  r.config = none ∧ r.render_pipeline = none

/-- A fully successful initialization environment for a 0 × 600 window
(a platform minimizes the window to zero width before `initialize` runs). -/
def envZero : InitEnv :=
  { create_surface := .ok 0,
    request_adapter_compatible := .ok 0,
    request_adapter_fallback := .error (),
    request_device := .ok (0, 1),
    formats := [7],
    alpha_modes := [3],
    window_width := 0,
    window_height := 600,
    render_pipeline := 4 }

/-- A fully successful initialization environment for an 800 × 600 window. -/
def envOk : InitEnv :=
  { create_surface := .ok 2,
    request_adapter_compatible := .ok 0,
    request_adapter_fallback := .error (),
    request_device := .ok (0, 1),
    formats := [7],
    alpha_modes := [3],
    window_width := 800,
    window_height := 600,
    render_pipeline := 4 }

/-- An initialization environment whose surface creation fails. -/
def envFailSurface : InitEnv :=
  { create_surface := .error "window unavailable",
    request_adapter_compatible := .error (),
    request_adapter_fallback := .error (),
    request_device := .error "no device",
    formats := [],
    alpha_modes := [],
    window_width := 800,
    window_height := 600,
    render_pipeline := 4 }

/-- A concrete surface configuration for an 800 × 600 window. -/
def readyConfig : SurfaceConfiguration :=
  { usage := renderAttachmentUsage,
    format := 7,
    width := 800,
    height := 600,
    present_mode := fifoPresentMode,
    alpha_mode := 3,
    view_formats := [],
    desired_maximum_frame_latency := 2 }

/-- A concrete renderer in the `Ready` state with a rebuilt vertex buffer. -/
def readyRenderer : Renderer :=
  { device := some 0,
    queue := some 1,
    surface := some 2,
    config := some readyConfig,
    render_pipeline := some 4,
    scene :=
      { entities := Scene.new.entities,
        vertex_buffer := some [
          { position := (0, 1/2) },
          { position := (-(1/2), -(1/2)) },
          { position := (1/2, -(1/2)) }] } }

/-! ### GameLoop lemmas -/

theorem drain_eq_mod_div (rate : ℕ) (hr : 0 < rate) :
    ∀ acc, drain rate acc = (acc % rate, acc / rate) := by
  intro acc
  induction acc using Nat.strong_induction_on with
  | _ acc ih =>
    rw [drain]
    by_cases hle : rate ≤ acc
    · have hlt : acc - rate < acc := by omega
      rw [dif_pos ⟨hr, hle⟩, ih _ hlt]
      have hmod : acc % rate = (acc - rate) % rate := (Nat.mod_eq_sub_mod hle).symm ▸ rfl
      have hdiv : acc / rate = (acc - rate) / rate + 1 := by
        rw [Nat.div_eq_sub_div hr hle]
      simp [hmod, hdiv]
    · rw [dif_neg (by omega)]
      have h1 : acc % rate = acc := Nat.mod_eq_of_lt (by omega)
      have h2 : acc / rate = 0 := Nat.div_eq_of_lt (by omega)
      simp [h1, h2]

theorem update_rate_sixty :
    durationFromSecsF64 f64_one_div_sixty = 16666667 := by
  have hround : (round (f64_one_div_sixty * 1000000000 : ℚ) : ℤ) = 16666667 := by
    rw [round_eq, Int.floor_eq_iff]
    constructor <;> norm_num [f64_one_div_sixty]
  rw [durationFromSecsF64, hround]
  rfl

/-- Arithmetic step used by `runTicks_accounting`: absorbing one division
step into a running product-plus-remainder account. -/
theorem accounting_step (A r S F T : ℕ) (hF : S * r + F = A % r + T) :
    (A / r + S) * r + F = A + T := by
  have hdm : A / r * r + A % r = A := Nat.div_add_mod' A r
  calc (A / r + S) * r + F = A / r * r + (S * r + F) := by ring
    _ = A / r * r + (A % r + T) := by rw [hF]
    _ = (A / r * r + A % r) + T := by ring
    _ = A + T := by rw [hdm]

theorem tick_eq (g : GameLoop) (now : ℕ) (hr : 0 < g.update_rate) :
    g.tick now =
      (⟨now, (g.accumulated_time + (now - g.last_update)) % g.update_rate,
          g.update_rate⟩,
       now - g.last_update,
       (g.accumulated_time + (now - g.last_update)) / g.update_rate) := by
  simp [GameLoop.tick, drain_eq_mod_div _ hr]

/-- Exact accounting for a run of ticks: the update rate is preserved, the
leftover stays below one period, and
`Σ update_count · period + final leftover = initial leftover + Σ elapsed`. -/
theorem runTicks_accounting (nows : List ℕ) :
    ∀ g : GameLoop, 0 < g.update_rate →
      g.accumulated_time < g.update_rate →
      (g.runTicks nows).1.update_rate = g.update_rate ∧
      (g.runTicks nows).1.accumulated_time < g.update_rate ∧
      ((g.runTicks nows).2.map Prod.snd).sum * g.update_rate
          + (g.runTicks nows).1.accumulated_time
        = g.accumulated_time + ((g.runTicks nows).2.map Prod.fst).sum := by
  induction nows with
  | nil =>
    intro g hr hacc
    exact ⟨rfl, hacc, by simp [GameLoop.runTicks]⟩
  | cons now rest ih =>
    intro g hr hacc
    have htick := tick_eq g now hr
    simp only [GameLoop.runTicks, htick]
    have hmod :
        (g.accumulated_time + (now - g.last_update)) % g.update_rate
          < g.update_rate :=
      Nat.mod_lt _ hr
    obtain ⟨ihr, ihlt, iheq⟩ :=
      ih ⟨now, (g.accumulated_time + (now - g.last_update)) % g.update_rate,
          g.update_rate⟩ hr hmod
    refine ⟨ihr, ihlt, ?_⟩
    simp only [List.map_cons, List.sum_cons]
    rw [accounting_step _ _ _ _ _ iheq]
    omega

/-- Helper evaluating `GameLoop::new(60.0)` at construction instant 0. -/
theorem new_sixty_eq : GameLoop.new f64_one_div_sixty 0 = ⟨0, 0, 16666667⟩ := by
  unfold GameLoop.new
  rw [update_rate_sixty]

/-! ## Claim theorems -/

/-- **C3.** Across any sequence of `tick()` calls on a fresh clock (empty
leftover bucket, positive update period), the sum over all calls of
`update_count × update_period` never exceeds the total elapsed time fed in,
and immediately after every `tick()` call (i.e. after every prefix of the
run) the leftover bucket lies in `[0, update_period)` — it is a `Duration`,
hence never negative, and stays strictly below one period. -/
theorem clock_budget_and_leftover_invariant (g : GameLoop) (nows : List ℕ)
    (hr : 0 < g.update_rate) (h0 : g.accumulated_time = 0) :
    ((g.runTicks nows).2.map Prod.snd).sum * g.update_rate ≤
        ((g.runTicks nows).2.map Prod.fst).sum ∧
    ∀ p l, nows = p ++ l →
      (g.runTicks p).1.accumulated_time < g.update_rate := by
  constructor
  · have h := (runTicks_accounting nows g hr (by omega)).2.2
    rw [h0, Nat.zero_add] at h
    exact Nat.le.intro h
  · intro p l _
    exact (runTicks_accounting p g hr (by omega)).2.1

/-- Witness for `clock_budget_and_leftover_invariant`: a 60 Hz clock ticked
after 16 ms and again after a further 500 ms. -/
theorem clock_budget_and_leftover_invariant_witness :
    (0 < (⟨0, 0, 16666667⟩ : GameLoop).update_rate) ∧
    ((⟨0, 0, 16666667⟩ : GameLoop).accumulated_time = 0) ∧
    ((((⟨0, 0, 16666667⟩ : GameLoop).runTicks
          [16000000, 516000000]).2.map Prod.snd).sum
        * (⟨0, 0, 16666667⟩ : GameLoop).update_rate ≤
      (((⟨0, 0, 16666667⟩ : GameLoop).runTicks
          [16000000, 516000000]).2.map Prod.fst).sum ∧
      ∀ p l, [16000000, 516000000] = p ++ l →
        ((⟨0, 0, 16666667⟩ : GameLoop).runTicks p).1.accumulated_time
          < (⟨0, 0, 16666667⟩ : GameLoop).update_rate) :=
  ⟨by decide, by decide,
   clock_budget_and_leftover_invariant ⟨0, 0, 16666667⟩
     [16000000, 516000000] (by decide) (by decide)⟩

/-- **C4** (counterexample): a clock built by `GameLoop::new(60.0)`, ticked
after exactly 500 ms, does *not* return `update_count = 30`. -/
theorem stall_burst_not_thirty :
    ((GameLoop.new f64_one_div_sixty 0).tick 500000000).2.2 ≠ 30 := by
  rw [new_sixty_eq, tick_eq _ _ (by norm_num)]
  decide

/-- **C4** (amended): a clock built by `GameLoop::new(60.0)` (update period
`Duration::from_secs_f64(1.0/60.0)` = 16 666 667 ns), ticked after exactly
500 ms of elapsed time, returns `update_count = 29` — the full
⌊500 ms / period⌋, since 30 periods are 500 000 010 ns > 500 ms; the burst
after a stall is still not clamped. -/
theorem stall_burst_twenty_nine :
    ((GameLoop.new f64_one_div_sixty 0).tick 500000000).2.2 = 29 := by
  rw [new_sixty_eq, tick_eq _ _ (by norm_num)]
  decide

/-! ### Renderer lemmas -/

/-- With no surface set, `render` returns immediately: state unchanged, no
GPU calls. -/
theorem render_no_surface (env : RenderEnv) (r : Renderer)
    (h : r.surface = none) : Renderer.render env r = (r, []) := by
  obtain ⟨d, q, s, c, p, ⟨ents, vb⟩⟩ := r
  cases s with
  | some a => simp at h
  | none => cases d <;> cases q <;> cases c <;> cases p <;> cases vb <;> rfl

/-- With no surface set, `resize` is a no-op. -/
theorem resize_no_surface (w h : ℕ) (r : Renderer) (hs : r.surface = none) :
    Renderer.resize w h r = (r, []) := by
  obtain ⟨d, q, s, c, p, ⟨ents, vb⟩⟩ := r
  cases s with
  | some a => simp at hs
  | none => cases d <;> cases c <;> rfl

/-- `resize` on a ready renderer: the stored configuration gets the clamped
dimensions and is reapplied to the surface. -/
theorem resize_ready (w h sv dv : ℕ) (cv : SurfaceConfiguration)
    (r : Renderer) (hs : r.surface = some sv) (hd : r.device = some dv)
    (hc : r.config = some cv) :
    Renderer.resize w h r =
      ({ r with
          config := some ({ cv with width := max w 1, height := max h 1 }) },
       [GpuCall.configure dv ({ cv with width := max w 1, height := max h 1 })]) := by
  simp [Renderer.resize, hs, hd, hc]

/-! ### Renderer claim theorems -/

/-- **C5.** From the `Uninitialized` state, if `initialize()` returns an
error then the context is exactly as before the call — in particular all
five resource fields are still unset; if it returns `Ok` then all five
resource fields are set (they are stored together, in one final block, so no
partially-filled resource set is ever observable). -/
theorem initialize_all_or_nothing (env : InitEnv) (r : Renderer)
    (hu : r.Uninitialized) :
    (∀ e, (Renderer.init env r).2 = Except.error e →
        (Renderer.init env r).1 = r ∧
        (Renderer.init env r).1.Uninitialized) ∧
    ((Renderer.init env r).2 = Except.ok () →
        (Renderer.init env r).1.device.isSome = true ∧
        (Renderer.init env r).1.queue.isSome = true ∧
        (Renderer.init env r).1.surface.isSome = true ∧
        (Renderer.init env r).1.config.isSome = true ∧
        (Renderer.init env r).1.render_pipeline.isSome = true) := by
  cases hcs : env.create_surface with
  | error e =>
    refine ⟨fun e' _ => ⟨?_, ?_⟩, fun hok => ?_⟩
    · simp [Renderer.init, hcs]
    · simp [Renderer.init, hcs]
      exact hu
    · simp [Renderer.init, hcs] at hok
  | ok sv =>
    cases hra : env.request_adapter_compatible with
    | ok av =>
      cases hrd : env.request_device with
      | error e =>
        refine ⟨fun e' _ => ⟨?_, ?_⟩, fun hok => ?_⟩
        · simp [Renderer.init, hcs, hra, hrd]
        · simp [Renderer.init, hcs, hra, hrd]
          exact hu
        · simp [Renderer.init, hcs, hra, hrd] at hok
      | ok dq =>
        obtain ⟨dv, qv⟩ := dq
        refine ⟨fun e' he' => ?_, fun _ => ?_⟩
        · simp [Renderer.init, hcs, hra, hrd] at he'
        · simp [Renderer.init, hcs, hra, hrd]
    | error u =>
      cases hrf : env.request_adapter_fallback with
      | ok av =>
        cases hrd : env.request_device with
        | error e =>
          refine ⟨fun e' _ => ⟨?_, ?_⟩, fun hok => ?_⟩
          · simp [Renderer.init, hcs, hra, hrf, hrd]
          · simp [Renderer.init, hcs, hra, hrf, hrd]
            exact hu
          · simp [Renderer.init, hcs, hra, hrf, hrd] at hok
        | ok dq =>
          obtain ⟨dv, qv⟩ := dq
          refine ⟨fun e' he' => ?_, fun _ => ?_⟩
          · simp [Renderer.init, hcs, hra, hrf, hrd] at he'
          · simp [Renderer.init, hcs, hra, hrf, hrd]
      | error u2 =>
        refine ⟨fun e' _ => ⟨?_, ?_⟩, fun hok => ?_⟩
        · simp [Renderer.init, hcs, hra, hrf]
        · simp [Renderer.init, hcs, hra, hrf]
          exact hu
        · simp [Renderer.init, hcs, hra, hrf] at hok

/-- Witness for `initialize_all_or_nothing`: a fresh renderer and an
environment whose surface creation fails. -/
theorem initialize_all_or_nothing_witness :
    Renderer.new.Uninitialized ∧
    ((∀ e, (Renderer.init envFailSurface Renderer.new).2 = Except.error e →
        (Renderer.init envFailSurface Renderer.new).1 = Renderer.new ∧
        (Renderer.init envFailSurface Renderer.new).1.Uninitialized) ∧
    ((Renderer.init envFailSurface Renderer.new).2 = Except.ok () →
        (Renderer.init envFailSurface Renderer.new).1.device.isSome = true ∧
        (Renderer.init envFailSurface Renderer.new).1.queue.isSome = true ∧
        (Renderer.init envFailSurface Renderer.new).1.surface.isSome = true ∧
        (Renderer.init envFailSurface Renderer.new).1.config.isSome = true ∧
        (Renderer.init envFailSurface Renderer.new).1.render_pipeline.isSome = true)) :=
  ⟨⟨rfl, rfl, rfl, rfl, rfl⟩,
   initialize_all_or_nothing envFailSurface Renderer.new ⟨rfl, rfl, rfl, rfl, rfl⟩⟩

/-- **C6.** For every width/height and every acquisition outcome, `render()`
and `resize(width, height)` on an uninitialized context perform no GPU calls,
leave the state unchanged, and return normally (they are total functions with
no error channel) — both degrade to safe no-ops. -/
theorem render_resize_noop_before_init (env : RenderEnv) (w h : ℕ)
    (r : Renderer) (hu : r.Uninitialized) :
    Renderer.render env r = (r, []) ∧ Renderer.resize w h r = (r, []) :=
  ⟨render_no_surface env r hu.2.2.1, resize_no_surface w h r hu.2.2.1⟩

/-- Witness for `render_resize_noop_before_init`: a fresh renderer,
`resize(0, 0)` and a lost-surface acquisition outcome. -/
theorem render_resize_noop_before_init_witness :
    Renderer.new.Uninitialized ∧
    (Renderer.render ⟨AcquireResult.lost⟩ Renderer.new = (Renderer.new, []) ∧
     Renderer.resize 0 0 Renderer.new = (Renderer.new, [])) :=
  ⟨⟨rfl, rfl, rfl, rfl, rfl⟩,
   render_resize_noop_before_init ⟨AcquireResult.lost⟩ 0 0 Renderer.new
     ⟨rfl, rfl, rfl, rfl, rfl⟩⟩

/-- **C7.** In the `Ready` state (all five resources and the scene's vertex
buffer present), when acquiring the next surface texture fails: on
`SurfaceError::Lost` the surface is reconfigured with the current stored
configuration and the call returns without drawing and with no error
surfaced; on any other acquisition error the call logs and returns without
drawing.  In both cases the frame is dropped, the state is unchanged, and
the call returns normally. -/
theorem render_acquire_failure (r : Renderer) (sv dv qv pv : ℕ)
    (cv : SurfaceConfiguration) (vb : List Vertex)
    (hs : r.surface = some sv) (hd : r.device = some dv)
    (hq : r.queue = some qv) (hc : r.config = some cv)
    (hp : r.render_pipeline = some pv)
    (hvb : r.scene.vertex_buffer = some vb) :
    Renderer.render ⟨AcquireResult.lost⟩ r = (r, [GpuCall.configure dv cv]) ∧
    ∀ e, Renderer.render ⟨AcquireResult.error e⟩ r
        = (r, [GpuCall.logError ("Surface error: " ++ e)]) := by
  constructor
  · simp [Renderer.render, hs, hd, hq, hc, hp, hvb]
  · intro e
    simp [Renderer.render, hs, hd, hq, hc, hp, hvb]

/-- Witness for `render_acquire_failure`: the concrete ready renderer. -/
theorem render_acquire_failure_witness :
    readyRenderer.surface = some 2 ∧
    (Renderer.render ⟨AcquireResult.lost⟩ readyRenderer
        = (readyRenderer, [GpuCall.configure 0 readyConfig]) ∧
     ∀ e, Renderer.render ⟨AcquireResult.error e⟩ readyRenderer
        = (readyRenderer, [GpuCall.logError ("Surface error: " ++ e)])) :=
  ⟨rfl,
   render_acquire_failure readyRenderer 2 0 1 4 readyConfig
     [{ position := (0, 1/2) },
      { position := (-(1/2), -(1/2)) },
      { position := (1/2, -(1/2)) }]
     rfl rfl rfl rfl rfl rfl⟩

/-- **C9.** `resize` is idempotent: calling it twice in succession with the
same `(width, height)` leaves exactly the state (in particular the stored
surface configuration) that one call produces.  This is proved for every
renderer state: on a `Ready` context both calls store the same clamped
configuration, and before readiness both calls are no-ops. -/
theorem resize_idempotent (w h : ℕ) (r : Renderer) :
    (Renderer.resize w h (Renderer.resize w h r).1).1
      = (Renderer.resize w h r).1 := by
  obtain ⟨d, q, s, c, p, sc⟩ := r
  cases s <;> cases d <;> cases c <;> rfl

/-- **C1** (counterexample): a successful `initialize()` with a 0 × 600
window stores width 0 — not the claimed clamped-to-≥1 value `max 0 1 = 1`. -/
theorem initialize_unclamped_cex :
    ((Renderer.init envZero Renderer.new).1.config.map
        fun c => (c.width, c.height)) = some (0, 600) ∧
    ((Renderer.init envZero Renderer.new).1.config.map
        fun c => (c.width, c.height)) ≠ some (max 0 1, max 600 1) := by
  constructor
  · rfl
  · decide

/-- **C1** (amended): a successful `initialize()` stores the window's current
pixel dimensions *unclamped*, while every `resize(w, h)` on an initialized
context stores the dimensions clamped to ≥ 1 — so the stored configuration
mirrors the latest known window size, clamped only on the resize path. -/
theorem config_mirrors_window (env : InitEnv) (r r' : Renderer)
    (w h sv dv : ℕ) (cv : SurfaceConfiguration)
    (hok : (Renderer.init env r).2 = Except.ok ())
    (hs : r'.surface = some sv) (hd : r'.device = some dv)
    (hc : r'.config = some cv) :
    ((Renderer.init env r).1.config.map
        fun c => (c.width, c.height))
      = some (env.window_width, env.window_height) ∧
    ((Renderer.resize w h r').1.config.map fun c => (c.width, c.height))
      = some (max w 1, max h 1) := by
  constructor
  · cases hcs : env.create_surface with
    | error e => simp [Renderer.init, hcs] at hok
    | ok sv2 =>
      cases hra : env.request_adapter_compatible with
      | ok av =>
        cases hrd : env.request_device with
        | error e => simp [Renderer.init, hcs, hra, hrd] at hok
        | ok dq =>
          obtain ⟨dv2, qv2⟩ := dq
          simp [Renderer.init, hcs, hra, hrd]
      | error u =>
        cases hrf : env.request_adapter_fallback with
        | ok av =>
          cases hrd : env.request_device with
          | error e => simp [Renderer.init, hcs, hra, hrf, hrd] at hok
          | ok dq =>
            obtain ⟨dv2, qv2⟩ := dq
            simp [Renderer.init, hcs, hra, hrf, hrd]
        | error u2 => simp [Renderer.init, hcs, hra, hrf] at hok
  · rw [resize_ready w h sv dv cv r' hs hd hc]
    simp

/-- Witness for `config_mirrors_window`: the successful 800 × 600
environment, then `resize(0, 5)` on the resulting context (scenario D:
width clamps to 1, height stays 5). -/
theorem config_mirrors_window_witness :
    (Renderer.init envOk Renderer.new).2 = Except.ok () ∧
    (Renderer.init envOk Renderer.new).1.surface = some 2 ∧
    (Renderer.init envOk Renderer.new).1.device = some 0 ∧
    (((Renderer.init envOk Renderer.new).1.config.map
        fun c => (c.width, c.height))
      = some (envOk.window_width, envOk.window_height) ∧
    ((Renderer.resize 0 5 (Renderer.init envOk Renderer.new).1).1.config.map
        fun c => (c.width, c.height))
      = some (max 0 1, max 5 1)) :=
  ⟨rfl, rfl, rfl,
   config_mirrors_window envOk Renderer.new
     (Renderer.init envOk Renderer.new).1 0 5 2 0
     { usage := renderAttachmentUsage, format := 7, width := 800,
       height := 600, present_mode := fifoPresentMode, alpha_mode := 3,
       view_formats := [], desired_maximum_frame_latency := 2 }
     rfl rfl rfl rfl⟩

/-! ### Scene lemmas and claim theorems -/

/-- The flattened world-space vertex list has one element per local vertex:
its length is the sum of the per-entity vertex counts. -/
theorem flatMap_vertices_length (ents : List Entity) :
    (ents.flatMap fun entity => entity.vertices.map fun v =>
        ({ position := (v.position.1 + entity.position.1,
                        v.position.2 + entity.position.2) } : Vertex)).length
      = (ents.map fun e => e.vertices.length).sum := by
  induction ents with
  | nil => rfl
  | cons a t ih => simp [List.flatMap_cons, ih]

/-- **C8.** After `rebuild_vertex_buffer()` (source name `initialize_buffer`),
`vertex_count()` is exactly the sum of the entities' vertex counts at rebuild
time, and the rebuilt buffer has exactly that many vertices (each local
vertex translated by its entity's offset).  Scenario C: for the single
triangle entity of `Scene::new` at offset (0,0), the count is 3 and the
world-space vertices equal the local vertices unchanged. -/
theorem rebuild_count_roundtrip (s : Scene) (d : ℕ) :
    (s.initialize_buffer d).vertex_count
        = (s.entities.map fun e => e.vertices.length).sum ∧
    ((s.initialize_buffer d).vertex_buffer.map List.length)
        = some ((s.initialize_buffer d).vertex_count) ∧
    (Scene.new.initialize_buffer d).vertex_count = 3 ∧
    (Scene.new.initialize_buffer d).vertex_buffer
      = some [{ position := (0, 1/2) },
              { position := (-(1/2), -(1/2)) },
              { position := (1/2, -(1/2)) }] := by
  refine ⟨rfl, ?_, rfl, ?_⟩
  · show some ((s.entities.flatMap fun entity => entity.vertices.map fun v =>
          ({ position := (v.position.1 + entity.position.1,
                          v.position.2 + entity.position.2) } : Vertex)).length)
        = some ((s.initialize_buffer d).vertex_count)
    rw [flatMap_vertices_length]
    rfl
  · simp [Scene.new, Scene.initialize_buffer]

/-- **C10.** `Scene::update(delta)` changes only the first entity's
world-space x offset: the entity count, every entity's local vertex list,
every entity's y offset, all entities after the first, the cached vertex
buffer and `vertex_count()` are unchanged, and a scene with no entities is
left entirely untouched. -/
theorem update_only_moves_first_x (s : Scene) (δ : ℚ) :
    (s.update δ).entities.length = s.entities.length ∧
    (s.update δ).entities.map Entity.vertices
        = s.entities.map Entity.vertices ∧
    ((s.update δ).entities.map fun e => e.position.2)
        = (s.entities.map fun e => e.position.2) ∧
    (s.update δ).entities.drop 1 = s.entities.drop 1 ∧
    (s.update δ).vertex_buffer = s.vertex_buffer ∧
    (s.update δ).vertex_count = s.vertex_count ∧
    ∀ b : Option (List Vertex),
      Scene.update { entities := [], vertex_buffer := b } δ
        = { entities := [], vertex_buffer := b } := by
  obtain ⟨ents, vb⟩ := s
  cases ents with
  | nil => exact ⟨rfl, rfl, rfl, rfl, rfl, rfl, fun b => rfl⟩
  | cons e rest => exact ⟨rfl, rfl, rfl, rfl, rfl, rfl, fun b => rfl⟩

/-! ### Frame-driver lemmas and claim theorem -/

/-- `stepScene` never touches the surface field. -/
theorem stepScene_surface (δ : ℚ) (r : Renderer) :
    (stepScene δ r).surface = r.surface := by
  obtain ⟨d, q, s, c, p, sc⟩ := r
  cases d <;> rfl

/-- `stepScene` never touches the device field. -/
theorem stepScene_device (δ : ℚ) (r : Renderer) :
    (stepScene δ r).device = r.device := by
  obtain ⟨d, q, s, c, p, sc⟩ := r
  cases d <;> rfl

/-- Iterating `stepScene` never touches the surface field. -/
theorem iterate_stepScene_surface (δ : ℚ) (n : ℕ) (r : Renderer) :
    ((stepScene δ)^[n] r).surface = r.surface := by
  induction n generalizing r with
  | zero => rfl
  | succ n ih =>
    rw [Function.iterate_succ_apply, ih, stepScene_surface]

/-- With no device, a step is just the scene update (no buffer rebuild). -/
theorem stepScene_of_device_none (δ : ℚ) (r : Renderer)
    (hd : r.device = none) :
    stepScene δ r = { r with scene := r.scene.update δ } := by
  obtain ⟨d, q, s, c, p, sc⟩ := r
  cases d with
  | none => rfl
  | some a => simp at hd

/-- Running `n` scene steps with per-step delta `δ` on a device-less renderer
whose first entity is `e` moves that entity's x offset by `n · (δ · ½)` and
leaves the x offsets of the remaining entities unchanged. -/
theorem iterate_stepScene_first_x (δ : ℚ) (n : ℕ) :
    ∀ (r : Renderer) (e : Entity) (rest : List Entity),
      r.device = none → r.scene.entities = e :: rest →
      (((stepScene δ)^[n] r).scene.entities.map fun en => en.position.1)
        = (e.position.1 + n * (δ * (1/2)))
            :: (rest.map fun en => en.position.1) := by
  induction n with
  | zero =>
    intro r e rest _ he
    simp [he]
  | succ n ih =>
    intro r e rest hd he
    have he' : (r.scene.update δ).entities
        = ({ e with
              position := (e.position.1 + δ * (1/2), e.position.2) }) :: rest := by
      simp [Scene.update, he]
    rw [Function.iterate_succ_apply, stepScene_of_device_none δ r hd,
      ih { r with scene := r.scene.update δ }
        ({ e with
            position := (e.position.1 + δ * (1/2), e.position.2) })
        rest hd he']
    simp only [List.cons.injEq, and_true]
    push_cast
    ring

/-- **C2** (code-bug evaluation at the failing input): after a 500 ms stall,
`about_to_wait` runs `update_count = 29` scene steps but feeds each one the
*whole frame delta* (0.5 s) instead of the fixed update period, so the
triangle's x offset advances by 29 · (0.5 · 0.5) = 29/4 — i.e. 14.5 s of
simulated time for 0.5 s of wall-clock time.  Under the claim each step
would receive the fixed period (the double 1/60 s ≈ 0.0167 s) and the
offset would be 29 · (1/60 · 0.5) ≈ 0.24, which the second conjunct
separates from the actual value. -/
theorem frame_driver_feeds_frame_delta :
    (((VellumApp.about_to_wait ⟨AcquireResult.lost⟩
          ⟨Renderer.new, GameLoop.new f64_one_div_sixty 0⟩
          500000000).1.renderer.scene.entities.map
        fun en => en.position.1)
      = [29/4]) ∧
    (29/4 : ℚ) ≠ 29 * (f64_one_div_sixty * (1/2)) := by
  constructor
  · have htick : (⟨0, 0, 16666667⟩ : GameLoop).tick 500000000
        = (⟨500000000, 16666657, 16666667⟩, 500000000, 29) := by
      rw [tick_eq _ _ (by norm_num)]
      decide
    have hsec : asSecsF64 500000000 = 1/2 := by
      norm_num [asSecsF64]
    have hsurf : ((stepScene (1/2))^[29] Renderer.new).surface = none := by
      rw [iterate_stepScene_surface]
      rfl
    simp only [VellumApp.about_to_wait, new_sixty_eq, htick, hsec]
    rw [render_no_surface _ _ hsurf]
    rw [iterate_stepScene_first_x (1/2) 29 Renderer.new _ _ rfl rfl]
    norm_num
  · norm_num [f64_one_div_sixty]

end Vellum
